import Mathlib

/-!
Shallow embedding of `src/apps/extractor/utils/extract_commits.py`
(class `Extractor`) together with a model, taken from the specification,
of the external commit-source collaborator (the pydriller `Repository`).

Python effects are made explicit:
* a method that can `raise` or `sys.exit` returns an `Outcome`;
* `print` calls and file writes are collected in a `StepResult`;
* the mutable `self` is threaded as an explicit `Extractor` state.
-/

set_option autoImplicit false

namespace GitExtract

/-- Calendar timestamp, second precision, as used by `datetime` here. -/
structure DateTime where
  year : Nat
  month : Nat
  day : Nat
  hour : Nat
  minute : Nat
  second : Nat
deriving DecidableEq

/-- Lexicographic comparison of timestamps (chronological order). -/
def DateTime.leb (a b : DateTime) : Bool :=
  if a.year ≠ b.year then a.year < b.year
  else if a.month ≠ b.month then a.month < b.month
  else if a.day ≠ b.day then a.day < b.day
  else if a.hour ≠ b.hour then a.hour < b.hour
  else if a.minute ≠ b.minute then a.minute < b.minute
  else a.second ≤ b.second

/-- Embeds `datetime(_today.year, _today.month, _today.day)`: midnight at
the start of the given moment's calendar day. -/
def startOfDay (t : DateTime) : DateTime :=
  { year := t.year, month := t.month, day := t.day
    hour := 0, minute := 0, second := 0 }

/-- A name/email attribution pair (pydriller `Developer`). -/
structure Identity where
  name : String
  email : String
deriving DecidableEq

/-- Kind of change of a modified file (pydriller `ModificationType`). -/
inductive ChangeType where
  | add
  | delete
  | rename
  | modify
  | copy
  | unknown
deriving DecidableEq

/-- Embeds Python `str(mf.change_type)` on a `ModificationType` value. -/
def ChangeType.str : ChangeType → String
  | .add => "ModificationType.ADD"
  | .delete => "ModificationType.DELETE"
  | .rename => "ModificationType.RENAME"
  | .modify => "ModificationType.MODIFY"
  | .copy => "ModificationType.COPY"
  | .unknown => "ModificationType.UNKNOWN"

/-- A file-change object as delivered by the commit source. -/
structure ModifiedFile where
  filename : String
  old_path : Option String
  new_path : Option String
  change_type : ChangeType
  added_lines : Nat
  deleted_lines : Nat
  source_code : Option String
  source_code_before : Option String
deriving DecidableEq

/-- The dictionary built for one entry of `modified_files` in
`Extractor.commit_to_dict` (`change_type` stringified). -/
structure ModifiedFileRecord where
  filename : String
  old_path : Option String
  new_path : Option String
  change_type : String
  added_lines : Nat
  deleted_lines : Nat
  source_code : Option String
  source_code_before : Option String
deriving DecidableEq

/-- Embeds the per-file dictionary comprehension in `commit_to_dict`. -/
def ModifiedFile.flatten (mf : ModifiedFile) : ModifiedFileRecord :=
  { filename := mf.filename
    old_path := mf.old_path
    new_path := mf.new_path
    change_type := mf.change_type.str
    added_lines := mf.added_lines
    deleted_lines := mf.deleted_lines
    source_code := mf.source_code
    source_code_before := mf.source_code_before }

/-- A commit object as delivered by the commit source (pydriller `Commit`),
with the attributes `commit_to_dict` reads.  Maintainability metrics are
optional real-valued numbers, modelled as `Option Rat`. -/
structure Commit where
  hash : String
  msg : String
  author : Option Identity
  committer : Option Identity
  author_date : DateTime
  author_timezone : Int
  committer_date : DateTime
  committer_timezone : Int
  branches : List String
  in_main_branch : Bool
  merge : Bool
  modified_files : List ModifiedFile
  parents : List String
  project_name : String
  project_path : String
  deletions : Nat
  insertions : Nat
  lines : Nat
  files : Nat
  dmm_unit_size : Option Rat
  dmm_unit_complexity : Option Rat
  dmm_unit_interfacing : Option Rat
deriving DecidableEq

/-- The flat dictionary produced per commit by `Extractor.commit_to_dict`. -/
structure CommitRecord where
  hash : String
  msg : String
  author : Option Identity
  committer : Option Identity
  author_date : DateTime
  author_timezone : Int
  committer_date : DateTime
  committer_timezone : Int
  branches : List String
  in_main_branch : Bool
  merge : Bool
  modified_files : List ModifiedFileRecord
  parents : List String
  project_name : String
  project_path : String
  deletions : Nat
  insertions : Nat
  lines : Nat
  files : Nat
  dmm_unit_size : Option Rat
  dmm_unit_complexity : Option Rat
  dmm_unit_interfacing : Option Rat
deriving DecidableEq

/-- The pure content of `Extractor.commit_to_dict`: the returned dictionary,
built from the commit alone.  Author and committer are rebuilt as
`{name, email}` pairs when present and are `None` otherwise. -/
def flattenCommit (commit : Commit) : CommitRecord :=
  { hash := commit.hash
    msg := commit.msg
    author :=
      match commit.author with
      | some a => some { name := a.name, email := a.email }
      | none => none
    committer :=
      match commit.committer with
      | some a => some { name := a.name, email := a.email }
      | none => none
    author_date := commit.author_date
    author_timezone := commit.author_timezone
    committer_date := commit.committer_date
    committer_timezone := commit.committer_timezone
    branches := commit.branches
    in_main_branch := commit.in_main_branch
    merge := commit.merge
    modified_files := commit.modified_files.map ModifiedFile.flatten
    parents := commit.parents
    project_name := commit.project_name
    project_path := commit.project_path
    deletions := commit.deletions
    insertions := commit.insertions
    lines := commit.lines
    files := commit.files
    dmm_unit_size := commit.dmm_unit_size
    dmm_unit_complexity := commit.dmm_unit_complexity
    dmm_unit_interfacing := commit.dmm_unit_interfacing }

/-- Error raised by the external collaborator when the repository locator
cannot be resolved. -/
structure ResolutionError where
  msg : String
deriving DecidableEq

/-- The configured commit source returned by the external `Repository`
constructor: it keeps the locator and the optional `since` bound. -/
structure Repository where
  path_to_repo : String
  since : Option DateTime
deriving DecidableEq

/-- The world the process runs in: the local clock, the working directory,
the full commit history behind each locator, and which locators fail to
resolve. -/
structure World where
  now : DateTime
  cwd : String
  history : String → List Commit
  resolveErr : String → Option ResolutionError

/-- Modelled from the spec: constructing the external `Repository`
(pydriller) resolves the locator; an invalid or unreachable locator
surfaces a `ResolutionError`, otherwise the configured source is returned
(spec section 4.1 and section 7). -/
def World.resolve (w : World) (url : String) (since : Option DateTime) :
    Except ResolutionError Repository :=
  match w.resolveErr url with
  | some e => .error e
  | none => .ok { path_to_repo := url, since := since }

/-- Whether a commit is dated on or after the bound, inclusive. -/
def onOrAfter (d : DateTime) (c : Commit) : Bool :=
  DateTime.leb d c.committer_date

/-- Modelled from the spec: the external source delivers the full history
as a finite sequence in delivery order; with a `since` bound it is scoped
to the commits whose date is on or after the bound, inclusive
(spec section 4.1 and section 6). -/
def World.traverse (w : World) (repo : Repository) : List Commit :=
  match repo.since with
  | none => w.history repo.path_to_repo
  | some d => (w.history repo.path_to_repo).filter (onOrAfter d)

/-- A Python exception raised by the extractor code. -/
inductive PyErr where
  | valueError (msg : String)
  | exception (msg : String)
deriving DecidableEq

/-- How a method call ends: a normal return, `sys.exit`, or a raise. -/
inductive Outcome (α : Type) where
  | ok (a : α)
  | exit (status : Nat)
  | error (e : PyErr)
deriving DecidableEq

/-- The pandas `DataFrame(self.commits)`: one row per record, in order. -/
structure DataFrame where
  rows : List CommitRecord
deriving DecidableEq

/-- One file written by the export step: its name (relative to the working
directory), the serialization format, the compression argument, and the
number of rows serialized. -/
structure FileWrite where
  filename : String
  format : String
  compression : Option String
  rows : Nat
deriving DecidableEq

/-- The state of an `Extractor` instance: the attributes set in
`Extractor.__init__`. -/
structure Extractor where
  type : String
  repo_url : String
  repo : Option Repository
  commits : List CommitRecord
  commit_data_frame : Option DataFrame
  parent_path : String
  export_path : Option String
deriving DecidableEq

/-- Result of running a method: its outcome, the instance state after the
call, and the `print` and file-write side effects, in order. -/
structure StepResult (α : Type) where
  val : Outcome α
  state : Extractor
  prints : List String := []
  writes : List FileWrite := []
deriving DecidableEq

/-- Embeds `os.path.join(parent, child)` for an absolute `parent` with no
trailing separator and a relative `child`. -/
def osPathJoin (parent child : String) : String :=
  parent ++ "/" ++ child

/-- Embeds `Extractor.__init__`: record the settings, start with an empty
commit list, and configure the repository source, bounded by `since =`
midnight of the current day when `today` is set and unbounded otherwise.
A resolution failure from the collaborator propagates: the constructor
catches nothing. -/
def Extractor.init (w : World) (type : String) (today : Bool)
    (repo_url : String) : Except ResolutionError Extractor :=
  let base : Extractor :=
    { type := type
      repo_url := repo_url
      repo := none
      commits := []
      commit_data_frame := none
      parent_path := w.cwd
      export_path := none }
  if today then
    match w.resolve repo_url (some (startOfDay w.now)) with
    | .error e => .error e
    | .ok r => .ok { base with repo := some r }
  else
    match w.resolve repo_url none with
    | .error e => .error e
    | .ok r => .ok { base with repo := some r }

/-- Embeds `Extractor.commit_to_dict`: it returns the flat dictionary for
the commit and leaves the instance untouched (the method assigns nothing
to `self`). -/
def Extractor.commit_to_dict (self : Extractor) (commit : Commit) :
    CommitRecord × Extractor :=
  (flattenCommit commit, self)

/-- One iteration of the loop in `_extract_commits`:
`self.commits.append(self.commit_to_dict(commit))`. -/
def appendCommit (self : Extractor) (commit : Commit) : Extractor :=
  let p := self.commit_to_dict commit
  { p.2 with commits := p.2.commits ++ [p.1] }

/-- Embeds `Extractor._extract_commits`: raise when no repository is
configured, otherwise append the flattening of every delivered commit to
`self.commits` in delivery order. -/
def Extractor._extract_commits (w : World) (self : Extractor) :
    StepResult Unit :=
  match self.repo with
  | none =>
      { val := .error (.exception "No repository found or configured.")
        state := self }
  | some repo =>
      { val := .ok ()
        state := (w.traverse repo).foldl appendCommit self }

/-- Embeds `Extractor._create_data_frame`: with no commits, print the
notice and `sys.exit(0)`; otherwise build the data frame from the
accumulated records. -/
def Extractor._create_data_frame (self : Extractor) : StepResult Unit :=
  if self.commits.isEmpty then
    { val := .exit 0
      state := self
      prints := ["No commits found, exiting..."] }
  else
    { val := .ok ()
      state := { self with commit_data_frame := some { rows := self.commits } } }

/-- Embeds `Extractor._export`: reject a missing type, then a missing data
frame; write `commits.parquet.gzip` with gzip compression or
`commits.csv`, set `export_path` to the join with `parent_path`, and
return it; any other type raises. -/
def Extractor._export (self : Extractor) : StepResult String :=
  if self.type = "" then
    { val := .error (.valueError "No export type provided. Use parquet or csv.")
      state := self }
  else
    match self.commit_data_frame with
    | none =>
        { val := .error (.valueError "No commit data frame found to export.")
          state := self }
    | some df =>
        if self.type = "parquet" then
          let path := osPathJoin self.parent_path "commits.parquet.gzip"
          { val := .ok path
            state := { self with export_path := some path }
            writes := [{ filename := "commits.parquet.gzip"
                         format := "parquet"
                         compression := some "gzip"
                         rows := df.rows.length }] }
        else if self.type = "csv" then
          let path := osPathJoin self.parent_path "commits.csv"
          { val := .ok path
            state := { self with export_path := some path }
            writes := [{ filename := "commits.csv"
                         format := "csv"
                         compression := none
                         rows := df.rows.length }] }
        else
          { val := .error (.valueError
              ("Unsupported export type: " ++ self.type ++ ". Use parquet or csv."))
            state := self }

/-- Embeds `Extractor.extract`: run `_extract_commits`, then
`_create_data_frame`, then `_export`; a raise or `sys.exit` in a step
aborts the rest, and the side effects of the completed steps accumulate. -/
def Extractor.extract (w : World) (self : Extractor) : StepResult String :=
  let r1 := Extractor._extract_commits w self
  match r1.val with
  | .ok _ =>
      let r2 := Extractor._create_data_frame r1.state
      match r2.val with
      | .ok _ =>
          let r3 := Extractor._export r2.state
          { val := r3.val
            state := r3.state
            prints := r1.prints ++ r2.prints ++ r3.prints
            writes := r1.writes ++ r2.writes ++ r3.writes }
      | .exit n =>
          { val := .exit n
            state := r2.state
            prints := r1.prints ++ r2.prints
            writes := r1.writes ++ r2.writes }
      | .error e =>
          { val := .error e
            state := r2.state
            prints := r1.prints ++ r2.prints
            writes := r1.writes ++ r2.writes }
  | .exit n =>
      { val := .exit n, state := r1.state
        prints := r1.prints, writes := r1.writes }
  | .error e =>
      { val := .error e, state := r1.state
        prints := r1.prints, writes := r1.writes }

/-! Helper lemmas characterizing the pipeline steps. -/

theorem appendCommit_eq (s : Extractor) (c : Commit) :
    appendCommit s c = { s with commits := s.commits ++ [flattenCommit c] } := rfl

theorem foldl_appendCommit (l : List Commit) (s : Extractor) :
    l.foldl appendCommit s
      = { s with commits := s.commits ++ l.map flattenCommit } := by
  induction l generalizing s with
  | nil => simp
  | cons c t ih =>
      rw [List.foldl_cons, ih, appendCommit_eq]
      simp

theorem isEmpty_false_of_ne_nil {α : Type} {l : List α} (h : l ≠ []) :
    l.isEmpty = false := by
  cases l with
  | nil => exact absurd rfl h
  | cons a t => rfl

theorem extract_commits_char (w : World) (e : Extractor) (repo : Repository)
    (h : e.repo = some repo) :
    Extractor._extract_commits w e =
      { val := .ok ()
        state := { e with
          commits := e.commits ++ (w.traverse repo).map flattenCommit } } := by
  obtain ⟨ty, url, r, cs, dfo, pp, ep⟩ := e
  dsimp only at h ⊢
  subst h
  dsimp only [Extractor._extract_commits]
  rw [foldl_appendCommit]

theorem extract_char (w : World) (e : Extractor) (repo : Repository)
    (h : e.repo = some repo)
    (hne : e.commits ++ (w.traverse repo).map flattenCommit ≠ []) :
    Extractor.extract w e = Extractor._export
      { e with
        commits := e.commits ++ (w.traverse repo).map flattenCommit
        commit_data_frame :=
          some { rows := e.commits ++ (w.traverse repo).map flattenCommit } } := by
  have hb := isEmpty_false_of_ne_nil hne
  obtain ⟨ty, url, r, cs, dfo, pp, ep⟩ := e
  dsimp only at h hb ⊢
  subst h
  simp only [Extractor.extract, Extractor._extract_commits,
    Extractor._create_data_frame, foldl_appendCommit]
  simp only [hb]
  rfl

theorem extract_char_empty (w : World) (e : Extractor) (repo : Repository)
    (h : e.repo = some repo) (hcs : e.commits = [])
    (hemp : w.traverse repo = []) :
    Extractor.extract w e =
      { val := .exit 0, state := e
        prints := ["No commits found, exiting..."] } := by
  obtain ⟨ty, url, r, cs, dfo, pp, ep⟩ := e
  dsimp only at h hcs ⊢
  subst h
  subst hcs
  simp only [Extractor.extract, Extractor._extract_commits,
    Extractor._create_data_frame, foldl_appendCommit, hemp]
  rfl

theorem export_char_supported (e : Extractor) (df : DataFrame)
    (hdf : e.commit_data_frame = some df)
    (hty : e.type = "parquet" ∨ e.type = "csv") :
    Extractor._export e =
      let fn := if e.type = "parquet" then "commits.parquet.gzip" else "commits.csv"
      { val := .ok (osPathJoin e.parent_path fn)
        state := { e with export_path := some (osPathJoin e.parent_path fn) }
        writes := [{ filename := fn
                     format := e.type
                     compression := if e.type = "parquet" then some "gzip" else none
                     rows := df.rows.length }] } := by
  obtain ⟨ty, url, r, cs, dfo, pp, ep⟩ := e
  dsimp only at hdf hty ⊢
  subst hdf
  rcases hty with hty | hty <;> subst hty <;> rfl

theorem export_char_unsupported (e : Extractor) (df : DataFrame)
    (hdf : e.commit_data_frame = some df)
    (h1 : e.type ≠ "parquet") (h2 : e.type ≠ "csv") :
    Extractor._export e =
      { val := .error (.valueError
          (if e.type = "" then "No export type provided. Use parquet or csv."
           else "Unsupported export type: " ++ e.type ++ ". Use parquet or csv."))
        state := e } := by
  obtain ⟨ty, url, r, cs, dfo, pp, ep⟩ := e
  dsimp only at hdf h1 h2 ⊢
  subst hdf
  by_cases h0 : ty = ""
  · subst h0; rfl
  · simp only [Extractor._export, if_neg h0, if_neg h1, if_neg h2]

theorem init_ok_elim (w : World) (ty : String) (today : Bool) (url : String)
    (e : Extractor) (hinit : Extractor.init w ty today url = .ok e) :
    e = { type := ty
          repo_url := url
          repo := some { path_to_repo := url
                         since := if today then some (startOfDay w.now) else none }
          commits := []
          commit_data_frame := none
          parent_path := w.cwd
          export_path := none } := by
  unfold Extractor.init World.resolve at hinit
  cases today <;> cases hr : w.resolveErr url <;> rw [hr] at hinit <;>
    simp at hinit <;> exact hinit.symm

/-! Concrete material used by the witness theorems. -/

/-- A sample commit with full attribution. -/
def cTest : Commit :=
  { hash := "h1"
    msg := "first"
    author := some { name := "ann", email := "ann@x" }
    committer := some { name := "bob", email := "bob@x" }
    author_date := { year := 2026, month := 10, day := 12
                     hour := 9, minute := 0, second := 0 }
    author_timezone := 0
    committer_date := { year := 2026, month := 10, day := 12
                        hour := 9, minute := 5, second := 0 }
    committer_timezone := 0
    branches := ["main"]
    in_main_branch := true
    merge := false
    modified_files := [{ filename := "a.py"
                         old_path := none
                         new_path := some "a.py"
                         change_type := .add
                         added_lines := 3
                         deleted_lines := 0
                         source_code := some "pass"
                         source_code_before := none }]
    parents := []
    project_name := "proj"
    project_path := "/proj"
    deletions := 0
    insertions := 3
    lines := 3
    files := 1
    dmm_unit_size := none
    dmm_unit_complexity := none
    dmm_unit_interfacing := none }

/-- A sample commit lacking only its author. -/
def cNoAuthor : Commit :=
  { cTest with hash := "h2", author := none }

/-- A sample commit lacking only its committer. -/
def cNoCommitter : Commit :=
  { cTest with hash := "h3", committer := none }

/-- A world whose every locator resolves and delivers one commit. -/
def wTest : World :=
  { now := { year := 2026, month := 10, day := 12
             hour := 12, minute := 30, second := 5 }
    cwd := "/work"
    history := fun _ => [cTest]
    resolveErr := fun _ => none }

/-- A world whose every locator resolves and delivers no commits. -/
def wEmpty : World :=
  { wTest with history := fun _ => [] }

/-- A world whose every locator fails to resolve. -/
def wBad : World :=
  { wTest with resolveErr := fun _ => some { msg := "Not a valid path or URL" } }

/-- The extractor produced by construction in `wTest` with the csv
selector, full history. -/
def eCsv : Extractor :=
  { type := "csv"
    repo_url := "repo"
    repo := some { path_to_repo := "repo", since := none }
    commits := []
    commit_data_frame := none
    parent_path := "/work"
    export_path := none }

/-- The same instance with the parquet selector. -/
def eParquet : Extractor :=
  { eCsv with type := "parquet" }

/-- The same instance with an unsupported selector. -/
def eJson : Extractor :=
  { eCsv with type := "json" }

/-- The instance produced with the today flag set in `wTest`. -/
def eToday : Extractor :=
  { eCsv with
    repo := some { path_to_repo := "repo"
                   since := some { year := 2026, month := 10, day := 12
                                   hour := 0, minute := 0, second := 0 } } }

/-- The record table built per delivered commit by `commit_to_dict` on a
given instance, in delivery order. -/
def commitDictsOf (e : Extractor) (l : List Commit) : List CommitRecord :=
  l.map fun c => (Extractor.commit_to_dict e c).1

theorem extract_supported_char (w : World) (e : Extractor) (repo : Repository)
    (h : e.repo = some repo)
    (hty : e.type = "parquet" ∨ e.type = "csv")
    (hne : e.commits ++ (w.traverse repo).map flattenCommit ≠ []) :
    Extractor.extract w e =
      let cs := e.commits ++ (w.traverse repo).map flattenCommit
      let fn := if e.type = "parquet" then "commits.parquet.gzip" else "commits.csv"
      { val := .ok (osPathJoin e.parent_path fn)
        state := { e with commits := cs
                          commit_data_frame := some { rows := cs }
                          export_path := some (osPathJoin e.parent_path fn) }
        writes := [{ filename := fn
                     format := e.type
                     compression := if e.type = "parquet" then some "gzip" else none
                     rows := cs.length }] } := by
  rw [extract_char w e repo h hne]
  exact export_char_supported
    { e with commits := e.commits ++ (w.traverse repo).map flattenCommit
             commit_data_frame :=
               some { rows := e.commits ++ (w.traverse repo).map flattenCommit } }
    { rows := e.commits ++ (w.traverse repo).map flattenCommit } rfl hty

theorem extract_unsupported_char (w : World) (e : Extractor) (repo : Repository)
    (h : e.repo = some repo)
    (h1 : e.type ≠ "parquet") (h2 : e.type ≠ "csv")
    (hne : e.commits ++ (w.traverse repo).map flattenCommit ≠ []) :
    Extractor.extract w e =
      let cs := e.commits ++ (w.traverse repo).map flattenCommit
      { val := .error (.valueError
          (if e.type = "" then "No export type provided. Use parquet or csv."
           else "Unsupported export type: " ++ e.type ++ ". Use parquet or csv."))
        state := { e with commits := cs
                          commit_data_frame := some { rows := cs } } } := by
  rw [extract_char w e repo h hne]
  exact export_char_unsupported
    { e with commits := e.commits ++ (w.traverse repo).map flattenCommit
             commit_data_frame :=
               some { rows := e.commits ++ (w.traverse repo).map flattenCommit } }
    { rows := e.commits ++ (w.traverse repo).map flattenCommit } rfl h1 h2

/-! Claim theorems. -/

/-- C1: for every source delivering at least one commit (and a supported
format selector), `extract` performs exactly one file write, the
accumulated commit table is the `commit_to_dict` flattening of the
delivered commits in delivery order, and the written row count equals the
number of delivered commits. -/
theorem C1_one_file_rowcount (w : World) (ty : String) (today : Bool)
    (url : String) (e : Extractor) (repo : Repository)
    (hinit : Extractor.init w ty today url = .ok e)
    (hty : ty = "parquet" ∨ ty = "csv")
    (hrepo : e.repo = some repo)
    (hne : w.traverse repo ≠ []) :
    (Extractor.extract w e).state.commits = commitDictsOf e (w.traverse repo)
      ∧ (Extractor.extract w e).writes.length = 1
      ∧ (Extractor.extract w e).writes.map FileWrite.rows
          = [(w.traverse repo).length] := by
  obtain rfl := init_ok_elim w ty today url e hinit
  rw [extract_supported_char w _ repo hrepo hty (by simpa using hne)]
  refine ⟨?_, rfl, ?_⟩
  · simp [commitDictsOf, Extractor.commit_to_dict]
  · simp

/-- C1 witness: one commit delivered, csv format: one write of one row,
and the table is its flattening. -/
theorem C1_witness :
    (Extractor.extract wTest eCsv).state.commits = commitDictsOf eCsv
        (wTest.traverse { path_to_repo := "repo", since := none })
      ∧ (Extractor.extract wTest eCsv).writes.length = 1
      ∧ (Extractor.extract wTest eCsv).writes.map FileWrite.rows
          = [(wTest.traverse { path_to_repo := "repo", since := none }).length] :=
  C1_one_file_rowcount wTest "csv" false "repo" eCsv
    { path_to_repo := "repo", since := none } rfl (Or.inr rfl) rfl (by decide)

/-- C2: when the source delivers no commits, `extract` emits the
user-facing notice, terminates the process with success status 0, and
writes no file. -/
theorem C2_empty_exit_zero (w : World) (ty : String) (today : Bool)
    (url : String) (e : Extractor) (repo : Repository)
    (hinit : Extractor.init w ty today url = .ok e)
    (hrepo : e.repo = some repo)
    (hemp : w.traverse repo = []) :
    (Extractor.extract w e).val = .exit 0
      ∧ (Extractor.extract w e).writes = []
      ∧ (Extractor.extract w e).prints = ["No commits found, exiting..."] := by
  obtain rfl := init_ok_elim w ty today url e hinit
  rw [extract_char_empty w _ repo hrepo rfl hemp]
  exact ⟨rfl, rfl, rfl⟩

/-- C2 witness: a source with no commits makes extract exit 0 with the
notice and no write. -/
theorem C2_witness :
    (Extractor.extract wEmpty eCsv).val = .exit 0
      ∧ (Extractor.extract wEmpty eCsv).writes = []
      ∧ (Extractor.extract wEmpty eCsv).prints = ["No commits found, exiting..."] :=
  C2_empty_exit_zero wEmpty "csv" false "repo" eCsv
    { path_to_repo := "repo", since := none } rfl rfl rfl

/-- C3 counterexample: with the unsupported selector json and a source
delivering one commit, construction succeeds with no error, the source is
traversed and a record is buffered, and only afterwards does the
configuration error surface, from the export step. -/
theorem C3_counterexample :
    Extractor.init wTest "json" false "repo" = .ok eJson
      ∧ (Extractor.extract wTest eJson).state.commits ≠ []
      ∧ (Extractor.extract wTest eJson).val
          = .error (.valueError "Unsupported export type: json. Use parquet or csv.") := by
  refine ⟨rfl, ?_, rfl⟩
  decide

/-- C3 amended: an unsupported or missing format selector raises no error
at construction; when the source delivers at least one commit, `extract`
first traverses the source and buffers every record, and only then raises
the configuration `ValueError` at the export step, writing no file. -/
theorem C3_config_error_after_traversal (w : World) (ty : String)
    (today : Bool) (url : String) (e : Extractor) (repo : Repository)
    (hinit : Extractor.init w ty today url = .ok e)
    (h1 : ty ≠ "parquet") (h2 : ty ≠ "csv")
    (hrepo : e.repo = some repo)
    (hne : w.traverse repo ≠ []) :
    (Extractor.extract w e).state.commits = (w.traverse repo).map flattenCommit
      ∧ (Extractor.extract w e).val = .error (.valueError
          (if ty = "" then "No export type provided. Use parquet or csv."
           else "Unsupported export type: " ++ ty ++ ". Use parquet or csv."))
      ∧ (Extractor.extract w e).writes = [] := by
  obtain rfl := init_ok_elim w ty today url e hinit
  rw [extract_unsupported_char w _ repo hrepo h1 h2 (by simpa using hne)]
  exact ⟨by simp, rfl, rfl⟩

/-- C3 amended witness: the json selector buffers the delivered commit
before its ValueError surfaces. -/
theorem C3_amended_witness :
    (Extractor.extract wTest eJson).state.commits
        = (wTest.traverse { path_to_repo := "repo", since := none }).map flattenCommit
      ∧ (Extractor.extract wTest eJson).val = .error (.valueError
          (if "json" = "" then "No export type provided. Use parquet or csv."
           else "Unsupported export type: " ++ "json" ++ ". Use parquet or csv."))
      ∧ (Extractor.extract wTest eJson).writes = [] :=
  C3_config_error_after_traversal wTest "json" false "repo" eJson
    { path_to_repo := "repo", since := none }
    rfl (by decide) (by decide) rfl (by decide)

/-- C4: a repository locator that fails to resolve surfaces the
collaborator resolution error from the constructor unchanged, whatever
the other settings: the failure is a distinct error kind and is not
swallowed. -/
theorem C4_init_resolution_error (w : World) (ty : String) (today : Bool)
    (url : String) (err : ResolutionError)
    (h : w.resolveErr url = some err) :
    Extractor.init w ty today url = .error err := by
  cases today <;> simp [Extractor.init, World.resolve, h]

/-- C4 witness: in a world where the locator is invalid, construction
reports the resolution error. -/
theorem C4_witness :
    Extractor.init wBad "csv" false "bad-url" =
      .error { msg := "Not a valid path or URL" } :=
  C4_init_resolution_error wBad "csv" false "bad-url"
    { msg := "Not a valid path or URL" } rfl

/-- C5: construction with the today flag set scopes the source to the
commits dated on or after midnight of the current calendar day,
inclusive; without the flag the source spans the full history. -/
theorem C5_today_scoping (w : World) (ty url : String) (et ef : Extractor)
    (ht : Extractor.init w ty true url = .ok et)
    (hf : Extractor.init w ty false url = .ok ef) :
    et.repo = some { path_to_repo := url, since := some (startOfDay w.now) }
      ∧ w.traverse { path_to_repo := url, since := some (startOfDay w.now) }
          = (w.history url).filter (onOrAfter (startOfDay w.now))
      ∧ ef.repo = some { path_to_repo := url, since := none }
      ∧ w.traverse { path_to_repo := url, since := none } = w.history url := by
  obtain rfl := init_ok_elim w ty true url et ht
  obtain rfl := init_ok_elim w ty false url ef hf
  exact ⟨rfl, rfl, rfl, rfl⟩

/-- C5 witness: in `wTest` the today instance is bounded at the 2026-10-12
midnight and the other instance is unbounded. -/
theorem C5_witness :
    eToday.repo = some { path_to_repo := "repo"
                         since := some (startOfDay wTest.now) }
      ∧ wTest.traverse { path_to_repo := "repo"
                         since := some (startOfDay wTest.now) }
          = (wTest.history "repo").filter (onOrAfter (startOfDay wTest.now))
      ∧ eCsv.repo = some { path_to_repo := "repo", since := none }
      ∧ wTest.traverse { path_to_repo := "repo", since := none }
          = wTest.history "repo" :=
  C5_today_scoping wTest "csv" "repo" eToday eCsv rfl rfl

/-- C6: with a non-empty table and a supported selector, `extract` writes
the fixed filename for that format — gzip-compressed
commits.parquet.gzip for parquet, commits.csv for csv — and returns the
join of the recorded working directory with that filename. -/
theorem C6_fixed_filenames (w : World) (ty : String) (today : Bool)
    (url : String) (e : Extractor) (repo : Repository)
    (hinit : Extractor.init w ty today url = .ok e)
    (hty : ty = "parquet" ∨ ty = "csv")
    (hrepo : e.repo = some repo)
    (hne : w.traverse repo ≠ []) :
    (Extractor.extract w e).writes =
        [{ filename := if ty = "parquet" then "commits.parquet.gzip" else "commits.csv"
           format := ty
           compression := if ty = "parquet" then some "gzip" else none
           rows := (w.traverse repo).length }]
      ∧ (Extractor.extract w e).val = .ok (osPathJoin w.cwd
          (if ty = "parquet" then "commits.parquet.gzip" else "commits.csv")) := by
  obtain rfl := init_ok_elim w ty today url e hinit
  rw [extract_supported_char w _ repo hrepo hty (by simpa using hne)]
  exact ⟨by simp, rfl⟩

/-- C6 witness: parquet selector, one commit: the gzip parquet file is
written and its absolute path returned. -/
theorem C6_witness :
    (Extractor.extract wTest eParquet).writes =
        [{ filename := if "parquet" = "parquet" then "commits.parquet.gzip" else "commits.csv"
           format := "parquet"
           compression := if "parquet" = "parquet" then some "gzip" else none
           rows := (wTest.traverse { path_to_repo := "repo", since := none }).length }]
      ∧ (Extractor.extract wTest eParquet).val = .ok (osPathJoin wTest.cwd
          (if "parquet" = "parquet" then "commits.parquet.gzip" else "commits.csv")) :=
  C6_fixed_filenames wTest "parquet" false "repo" eParquet
    { path_to_repo := "repo", since := none } rfl (Or.inl rfl) rfl (by decide)

/-- C7: for every commit, a missing author flattens to the explicit absent
marker in the record, and independently a missing committer flattens to
the explicit absent marker: each absence on its own is handled, and the
flattening is total, so no error is raised. -/
theorem C7_absent_attribution (e : Extractor) (c : Commit) :
    (c.author = none → ((Extractor.commit_to_dict e c).1).author = none)
      ∧ (c.committer = none → ((Extractor.commit_to_dict e c).1).committer = none) := by
  constructor <;> intro h <;> simp [Extractor.commit_to_dict, flattenCommit, h]

/-- C7 witness: a commit lacking only its author flattens to an absent
author marker, and a commit lacking only its committer flattens to an
absent committer marker. -/
theorem C7_witness :
    ((Extractor.commit_to_dict eCsv cNoAuthor).1).author = none
      ∧ ((Extractor.commit_to_dict eCsv cNoCommitter).1).committer = none :=
  ⟨(C7_absent_attribution eCsv cNoAuthor).1 rfl,
   (C7_absent_attribution eCsv cNoCommitter).2 rfl⟩

/-- C8: `commit_to_dict` is deterministic and stateless: it leaves the
instance unchanged, its record does not depend on the instance, and
flattening the same commit twice yields the identical record. -/
theorem C8_flatten_deterministic (e eOther : Extractor) (c : Commit) :
    (Extractor.commit_to_dict e c).2 = e
      ∧ (Extractor.commit_to_dict e c).1 = (Extractor.commit_to_dict eOther c).1
      ∧ (Extractor.commit_to_dict ((Extractor.commit_to_dict e c).2) c).1
          = (Extractor.commit_to_dict e c).1 :=
  ⟨rfl, rfl, rfl⟩

/-- C9: a second `extract` on the same instance re-traverses the source
and appends to the uncleared commits list, so the table exported by the
second call holds every commit twice and its row count is double the
number delivered. -/
theorem C9_second_extract_doubles (w : World) (ty : String) (today : Bool)
    (url : String) (e : Extractor) (repo : Repository)
    (hinit : Extractor.init w ty today url = .ok e)
    (hty : ty = "parquet" ∨ ty = "csv")
    (hrepo : e.repo = some repo)
    (hne : w.traverse repo ≠ []) :
    (Extractor.extract w (Extractor.extract w e).state).state.commits
        = (w.traverse repo).map flattenCommit ++ (w.traverse repo).map flattenCommit
      ∧ (Extractor.extract w (Extractor.extract w e).state).writes.map FileWrite.rows
          = [2 * (w.traverse repo).length] := by
  have he := init_ok_elim w ty today url e hinit
  have hcs0 : e.commits = [] := by rw [he]
  have htye : e.type = ty := by rw [he]
  have hty' : e.type = "parquet" ∨ e.type = "csv" := by rw [htye]; exact hty
  have hne1 : e.commits ++ (w.traverse repo).map flattenCommit ≠ [] := by
    rw [hcs0]; simpa using hne
  have h1 := extract_supported_char w e repo hrepo hty' hne1
  have hr1 : (Extractor.extract w e).state.repo = some repo := by
    rw [h1]; exact hrepo
  have hty1 : (Extractor.extract w e).state.type = "parquet"
      ∨ (Extractor.extract w e).state.type = "csv" := by
    rw [h1]; exact hty'
  have hcs1 : (Extractor.extract w e).state.commits
      = e.commits ++ (w.traverse repo).map flattenCommit := by
    rw [h1]
  have hne2 : (Extractor.extract w e).state.commits
      ++ (w.traverse repo).map flattenCommit ≠ [] := by
    rw [hcs1, hcs0]; simpa using hne
  have h2 := extract_supported_char w (Extractor.extract w e).state repo hr1 hty1 hne2
  rw [h2]
  dsimp only
  constructor
  · rw [hcs1, hcs0]; simp
  · rw [hcs1, hcs0]; simp [two_mul]

/-- C9 witness: after two extract calls on the same csv instance the
table holds the single delivered commit twice and the second write has
two rows. -/
theorem C9_witness :
    (Extractor.extract wTest (Extractor.extract wTest eCsv).state).state.commits
        = (wTest.traverse { path_to_repo := "repo", since := none }).map flattenCommit
            ++ (wTest.traverse { path_to_repo := "repo", since := none }).map flattenCommit
      ∧ (Extractor.extract wTest
            (Extractor.extract wTest eCsv).state).writes.map FileWrite.rows
          = [2 * (wTest.traverse { path_to_repo := "repo", since := none }).length] :=
  C9_second_extract_doubles wTest "csv" false "repo" eCsv
    { path_to_repo := "repo", since := none } rfl (Or.inr rfl) rfl (by decide)

/-- C10: every successfully constructed extractor has a configured
repository, so the no-repository error branch of `_extract_commits` is
unreachable: the traversal step returns normally. -/
theorem C10_repo_configured (w : World) (ty : String) (today : Bool)
    (url : String) (e : Extractor)
    (hinit : Extractor.init w ty today url = .ok e) :
    e.repo ≠ none ∧ (Extractor._extract_commits w e).val = .ok () := by
  obtain rfl := init_ok_elim w ty today url e hinit
  exact ⟨fun h => Option.noConfusion h, rfl⟩

/-- C10 witness: the constructed csv instance has a repository and its
traversal step succeeds. -/
theorem C10_witness :
    eCsv.repo ≠ none ∧ (Extractor._extract_commits wTest eCsv).val = .ok () :=
  C10_repo_configured wTest "csv" false "repo" eCsv rfl

end GitExtract
